import Mathlib

/-!
Verification of the layout generator of `AgentWorldStarter.cpp`
(BlackRoad-OS / blackroad-os-prism-enterprise).

The source file is an Unreal Engine actor whose only algorithmic content is
the deterministic spatial layout of three kinds of entities:

* `CreateLeaders` (lines 134-147): one record per configured leader name,
  placed along the x axis at elevation 500, spaced by `2 * Spacing`,
  size `AgentSize * 1.5`, id `Leader_<name>`.
* `CreateTeachersAndStudents` (lines 149-177): `TeacherCount` teachers in a
  grid of row width 5 at elevation -500 (`Row = i / 5`, `Col = i % 5`,
  position `(Col*Spacing*3, Row*Spacing*4, -500)`), size `AgentSize`,
  id `Teacher_<i+1>`; each teacher is followed by `StudentsPerTeacher`
  students on a circle of radius `Spacing` around it
  (angle `j * 360 / StudentsPerTeacher` degrees), size `AgentSize * 0.8`,
  id `Teacher_<i+1>_Student_<j+1>`.

We embed this as a pure function `generate` from a configuration to the list
of placement records, in the order the C++ code spawns them (all leaders,
then teachers interleaved with their students, teacher-major).  Machine
`int32` counters become `Int` (the `for` loops run `Int.toNat count` times,
which is exactly the clamping behaviour of `for (int32 i = 0; i < N; i++)`),
and `float` coordinates become real numbers.
-/

/-- A 3-component vector, modelling Unreal's `FVector`. -/
structure Vec3 where
  x : ℝ
  y : ℝ
  z : ℝ

/-- An RGB colour, modelling the `FLinearColor` configuration fields. -/
structure LinearColor where
  r : ℝ
  g : ℝ
  b : ℝ

/-- The closed set of entity categories of the layout generator. -/
inductive Category where
  | Leader : Category
  | Teacher : Category
  | Student : Category
  deriving DecidableEq

/-- One output record of the layout generator: the data `CreateAgent`
receives for one spawned entity (lines 179-197), plus the category of the
call site that produced it. -/
structure PlacementRecord where
  id : String
  category : Category
  pos : Vec3
  color : LinearColor
  size : ℝ

/-- The configuration of `AAgentWorldStarter`: the `UPROPERTY` fields
(lines 27-49) together with the leader name list (line 56). -/
structure Config where
  leaderNames : List String
  teacherCount : Int
  studentsPerTeacher : Int
  spacing : ℝ
  agentSize : ℝ
  leaderColor : LinearColor
  teacherColor : LinearColor
  studentColor : LinearColor
  showLabels : Bool

/-- Decimal rendering of a natural number: base-10 digits, most significant
first, as produced by `Printf("%d", n)` for a positive `n` (the code only
formats `i + 1` and `j + 1`, which are at least 1). -/
def decRepr (n : ℕ) : String :=
  ((Nat.digits 10 n).reverse.map Nat.digitChar).asString

/-- The record built for the leader at index `i` with name `name`
(lines 140-142): position `LeaderStartPos + (i * Spacing * 2, 0, 0)` with
`LeaderStartPos = (0, 0, 500)`, id `Leader_<name>`, size `AgentSize * 1.5`. -/
def leaderRecord (cfg : Config) (i : ℕ) (name : String) : PlacementRecord :=
  { id := "Leader_" ++ name
    category := Category.Leader
    pos := ⟨(i : ℝ) * cfg.spacing * 2, 0, 500⟩
    color := cfg.leaderColor
    size := cfg.agentSize * 1.5 }

/-- The loop of `CreateLeaders` (lines 138-146): one record per name, with
`i` the running index. -/
def leaderLoop (cfg : Config) : ℕ → List String → List PlacementRecord
  | _, [] => []
  | i, name :: rest => leaderRecord cfg i name :: leaderLoop cfg (i + 1) rest

/-- `CreateLeaders` (lines 134-147). -/
def createLeaders (cfg : Config) : List PlacementRecord :=
  leaderLoop cfg 0 cfg.leaderNames

/-- Teacher position in the grid (lines 151-159):
`Row = i / TeachersPerRow`, `Col = i % TeachersPerRow` with
`TeachersPerRow = 5`, position
`TeacherStartPos + (Col * Spacing * 3, Row * Spacing * 4, 0)` with
`TeacherStartPos = (0, 0, -500)`. -/
def teacherPos (cfg : Config) (i : ℕ) : Vec3 :=
  ⟨((i % 5 : ℕ) : ℝ) * cfg.spacing * 3, ((i / 5 : ℕ) : ℝ) * cfg.spacing * 4, -500⟩

/-- The record built for the teacher at index `i` (lines 163-164):
id `Teacher_<i+1>`, size `AgentSize`. -/
def teacherRecord (cfg : Config) (i : ℕ) : PlacementRecord :=
  { id := "Teacher_" ++ decRepr (i + 1)
    category := Category.Teacher
    pos := teacherPos cfg i
    color := cfg.teacherColor
    size := cfg.agentSize }

/-- The angle of student `j` (line 169):
`(j * 360.0f / StudentsPerTeacher) * PI / 180.0f`.  The division is a
floating-point division by the (converted) `int32` field, modelled as real
division. -/
noncomputable def studentAngle (cfg : Config) (j : ℕ) : ℝ :=
  ((j : ℝ) * 360 / (cfg.studentsPerTeacher : ℝ)) * Real.pi / 180

/-- The record built for student `j` of teacher `i` (lines 169-174):
position `TeacherPos + (cos(Angle) * Spacing, sin(Angle) * Spacing, 0)`,
id `Teacher_<i+1>_Student_<j+1>`, size `AgentSize * 0.8`. -/
noncomputable def studentRecord (cfg : Config) (i j : ℕ) : PlacementRecord :=
  { id := "Teacher_" ++ decRepr (i + 1) ++ "_Student_" ++ decRepr (j + 1)
    category := Category.Student
    pos := ⟨(teacherPos cfg i).x + Real.cos (studentAngle cfg j) * cfg.spacing,
            (teacherPos cfg i).y + Real.sin (studentAngle cfg j) * cfg.spacing,
            (teacherPos cfg i).z⟩
    color := cfg.studentColor
    size := cfg.agentSize * 0.8 }

/-- The inner student loop of `CreateTeachersAndStudents` (lines 167-175):
`StudentsPerTeacher` iterations (none when the `int32` field is `<= 0`). -/
noncomputable def studentsOf (cfg : Config) (i : ℕ) : List PlacementRecord :=
  (List.range cfg.studentsPerTeacher.toNat).map (studentRecord cfg i)

/-- The records spawned by one iteration of the outer teacher loop
(lines 154-176): the teacher record followed by its students.  This covers
only the `CreateAgent` calls of the iteration; the iteration also performs
the line-162 leader lookup, which is modelled by `teacherLeaderName` and
incorporated in `teacherLoopE` below, and which faults on an empty leader
list before any of these records is produced. -/
noncomputable def teacherBlock (cfg : Config) (i : ℕ) : List PlacementRecord :=
  teacherRecord cfg i :: studentsOf cfg i

/-- The outer loop of `CreateTeachersAndStudents`, unrolled from the left:
`teacherLoop cfg n` is the output of the first `n` iterations. -/
noncomputable def teacherLoop (cfg : Config) : ℕ → List PlacementRecord
  | 0 => []
  | n + 1 => teacherLoop cfg n ++ teacherBlock cfg n

/-- The records spawned by `CreateTeachersAndStudents` (lines 149-177):
`TeacherCount` iterations of the outer loop (zero when the `int32` field is
negative).  The complete-run model, which also accounts for the fatal
line-162 lookup failure on an empty leader list, is
`createTeachersAndStudentsE` below. -/
noncomputable def createTeachersAndStudents (cfg : Config) : List PlacementRecord :=
  teacherLoop cfg cfg.teacherCount.toNat

/-- The records spawned by `CreateAgentWorld` (lines 124-132): it runs
`CreateLeaders` and then `CreateTeachersAndStudents`, appending every
record to the `Agents` array in spawn order.  `generate` lists the records
in the order their `CreateAgent` calls execute; whether the run actually
completes (it faults at line 162 on an empty leader list with a positive
teacher count) is modelled by `generateE` below. -/
noncomputable def generate (cfg : Config) : List PlacementRecord :=
  createLeaders cfg ++ createTeachersAndStudents cfg

/-- Line 162, `Leaders[i % Leaders.Num()]`: the round-robin leader lookup
performed for teacher `i` (its result is assigned to a local that the rest
of the loop never reads).  `none` models the failed lookup — an integer
modulo by zero followed by an out-of-bounds `TArray` access — that the
statement performs when the leader list is empty. -/
def teacherLeaderName (leaders : List String) (i : ℕ) : Option String :=
  if leaders.length = 0 then none else leaders.get? (i % leaders.length)

/-- The outer teacher loop including line 162: iteration `n` first performs
the round-robin leader lookup (whose result is discarded) and only then
spawns its records.  `none` models the fatal failure of the lookup, which
aborts the run: on an empty leader list the first iteration already faults
and no complete output exists. -/
noncomputable def teacherLoopE (cfg : Config) : ℕ → Option (List PlacementRecord)
  | 0 => some []
  | n + 1 =>
      match teacherLoopE cfg n, teacherLeaderName cfg.leaderNames n with
      | some l, some _ => some (l ++ teacherBlock cfg n)
      | _, _ => none

/-- `CreateTeachersAndStudents` (lines 149-177) as a complete run,
including the per-iteration line-162 lookup: `none` models the abort. -/
noncomputable def createTeachersAndStudentsE (cfg : Config) : Option (List PlacementRecord) :=
  teacherLoopE cfg cfg.teacherCount.toNat

/-- The complete run of `CreateAgentWorld` (lines 124-132): the leaders
followed by the teacher loop's records when every iteration completes,
`none` when the teacher loop faults at line 162. -/
noncomputable def generateE (cfg : Config) : Option (List PlacementRecord) :=
  (createTeachersAndStudentsE cfg).map fun ts => createLeaders cfg ++ ts

/-- The predicate selecting records of category `c`. -/
def catP (c : Category) : PlacementRecord → Bool :=
  fun r => decide (r.category = c)

theorem teacherLeaderName_of_ne_nil {leaders : List String} (h : leaders ≠ []) (i : ℕ) :
    ∃ nm, teacherLeaderName leaders i = some nm := by
  have hlen : leaders.length ≠ 0 := fun hh => h (List.length_eq_zero.mp hh)
  have hlt : i % leaders.length < leaders.length :=
    Nat.mod_lt _ (Nat.pos_of_ne_zero hlen)
  exact ⟨leaders.get ⟨i % leaders.length, hlt⟩, by
    rw [teacherLeaderName, if_neg hlen]
    exact List.get?_eq_get hlt⟩

theorem teacherLoopE_of_ne_nil (cfg : Config) (h : cfg.leaderNames ≠ []) :
    ∀ n, teacherLoopE cfg n = some (teacherLoop cfg n) := by
  intro n
  induction n with
  | zero => rfl
  | succ n ih =>
      obtain ⟨nm, hnm⟩ := teacherLeaderName_of_ne_nil h n
      rw [teacherLoopE, ih, hnm]
      rfl

theorem teacherLoopE_nil (cfg : Config) (h : cfg.leaderNames = []) :
    ∀ n, teacherLoopE cfg (n + 1) = none := by
  intro n
  have hlook : teacherLeaderName cfg.leaderNames n = none := by
    rw [h]
    rfl
  rw [teacherLoopE, hlook]
  cases teacherLoopE cfg n <;> rfl

theorem generateE_of_ne_nil (cfg : Config) (h : cfg.leaderNames ≠ []) :
    generateE cfg = some (generate cfg) := by
  rw [generateE, createTeachersAndStudentsE, teacherLoopE_of_ne_nil cfg h]
  rfl

theorem generateE_of_no_teachers (cfg : Config) (h : cfg.teacherCount.toNat = 0) :
    generateE cfg = some (generate cfg) := by
  rw [generateE, createTeachersAndStudentsE, generate, createTeachersAndStudents, h]
  rfl

theorem generateE_aborts (cfg : Config) (h : cfg.leaderNames = [])
    (h2 : cfg.teacherCount.toNat ≠ 0) : generateE cfg = none := by
  obtain ⟨n, hn⟩ : ∃ n, cfg.teacherCount.toNat = n + 1 :=
    ⟨cfg.teacherCount.toNat - 1, by omega⟩
  rw [generateE, createTeachersAndStudentsE, hn, teacherLoopE_nil cfg h n]
  rfl

theorem length_leaderLoop (cfg : Config) (names : List String) :
    ∀ i, (leaderLoop cfg i names).length = names.length := by
  induction names with
  | nil => intro i; rfl
  | cons nm rest ih => intro i; simp [leaderLoop, ih]

theorem get?_leaderLoop (cfg : Config) (names : List String) :
    ∀ i k, (leaderLoop cfg i names).get? k = (names.get? k).map (leaderRecord cfg (i + k)) := by
  induction names with
  | nil => intro i k; simp [leaderLoop]
  | cons nm rest ih =>
      intro i k
      cases k with
      | zero => simp [leaderLoop]
      | succ k =>
          have h := ih (i + 1) k
          simpa [leaderLoop, Nat.add_assoc, Nat.add_comm 1 k] using h

theorem length_teacherLoop (cfg : Config) :
    ∀ n, (teacherLoop cfg n).length = n * (1 + cfg.studentsPerTeacher.toNat) := by
  intro n
  induction n with
  | zero => simp [teacherLoop]
  | succ n ih =>
      simp [teacherLoop, teacherBlock, studentsOf, ih]
      ring

theorem teacherLoop_get? (cfg : Config) (i r : ℕ)
    (hr : r < 1 + cfg.studentsPerTeacher.toNat) :
    ∀ n, i < n →
      (teacherLoop cfg n).get? (i * (1 + cfg.studentsPerTeacher.toNat) + r)
        = (teacherBlock cfg i).get? r := by
  intro n
  induction n with
  | zero => intro h; exact absurd h (Nat.not_lt_zero i)
  | succ n ih =>
      intro hin
      rcases Nat.lt_or_ge i n with hlt | hge
      · rw [teacherLoop, List.get?_append]
        · exact ih hlt
        · rw [length_teacherLoop]
          calc i * (1 + cfg.studentsPerTeacher.toNat) + r
              < i * (1 + cfg.studentsPerTeacher.toNat) + (1 + cfg.studentsPerTeacher.toNat) :=
                Nat.add_lt_add_left hr _
            _ = (i + 1) * (1 + cfg.studentsPerTeacher.toNat) := by ring
            _ ≤ n * (1 + cfg.studentsPerTeacher.toNat) :=
                Nat.mul_le_mul_right _ hlt
      · have hi : i = n := Nat.le_antisymm (Nat.lt_succ_iff.mp hin) hge
        subst hi
        rw [teacherLoop, List.get?_append_right]
        · rw [length_teacherLoop]
          congr 1
          omega
        · rw [length_teacherLoop]
          exact Nat.le_add_right _ _

theorem teacherBlock_get?_zero (cfg : Config) (i : ℕ) :
    (teacherBlock cfg i).get? 0 = some (teacherRecord cfg i) := rfl

theorem teacherBlock_get?_succ (cfg : Config) (i j : ℕ)
    (hj : j < cfg.studentsPerTeacher.toNat) :
    (teacherBlock cfg i).get? (1 + j) = some (studentRecord cfg i j) := by
  have h1 : (1 + j : ℕ) = j + 1 := Nat.add_comm 1 j
  rw [h1]
  show (studentsOf cfg i).get? j = some (studentRecord cfg i j)
  rw [studentsOf, List.get?_map, List.get?_range hj]
  rfl

theorem length_createLeaders (cfg : Config) :
    (createLeaders cfg).length = cfg.leaderNames.length :=
  length_leaderLoop cfg cfg.leaderNames 0

theorem generate_get?_leader (cfg : Config) (k : ℕ) (nm : String)
    (h : cfg.leaderNames.get? k = some nm) :
    (generate cfg).get? k = some (leaderRecord cfg k nm) := by
  have hk : k < cfg.leaderNames.length := by
    rcases List.get?_eq_some.mp h with ⟨hlt, _⟩
    exact hlt
  rw [generate, List.get?_append]
  · rw [createLeaders, get?_leaderLoop, h]
    simp
  · rw [length_createLeaders]; exact hk

theorem generate_get?_teacher (cfg : Config) (i : ℕ)
    (hi : i < cfg.teacherCount.toNat) :
    (generate cfg).get?
        (cfg.leaderNames.length + i * (1 + cfg.studentsPerTeacher.toNat))
      = some (teacherRecord cfg i) := by
  have ht := teacherLoop_get? cfg i 0 (by omega) cfg.teacherCount.toNat hi
  rw [Nat.add_zero] at ht
  rw [generate, List.get?_append_right]
  · rw [length_createLeaders, Nat.add_sub_cancel_left, createTeachersAndStudents, ht]
    rfl
  · rw [length_createLeaders]; exact Nat.le_add_right _ _

theorem generate_get?_student (cfg : Config) (i j : ℕ)
    (hi : i < cfg.teacherCount.toNat) (hj : j < cfg.studentsPerTeacher.toNat) :
    (generate cfg).get?
        (cfg.leaderNames.length + (i * (1 + cfg.studentsPerTeacher.toNat) + 1 + j))
      = some (studentRecord cfg i j) := by
  rw [generate, List.get?_append_right]
  · rw [length_createLeaders, Nat.add_sub_cancel_left, createTeachersAndStudents]
    have harr : i * (1 + cfg.studentsPerTeacher.toNat) + 1 + j
        = i * (1 + cfg.studentsPerTeacher.toNat) + (1 + j) := by omega
    rw [harr, teacherLoop_get? cfg i (1 + j) (by omega) _ hi,
      teacherBlock_get?_succ cfg i j hj]
  · rw [length_createLeaders]; exact Nat.le_add_right _ _

theorem countP_leaderLoop (cfg : Config) (c : Category) (names : List String) :
    ∀ i, (leaderLoop cfg i names).countP (catP c)
      = if Category.Leader = c then names.length else 0 := by
  induction names with
  | nil => intro i; by_cases h : Category.Leader = c <;> simp [leaderLoop, h]
  | cons nm rest ih =>
      intro i
      by_cases h : Category.Leader = c <;>
        simp [leaderLoop, List.countP_cons, catP, leaderRecord, ih, h]

theorem countP_studentsOf (cfg : Config) (c : Category) (i : ℕ) :
    (studentsOf cfg i).countP (catP c)
      = if Category.Student = c then cfg.studentsPerTeacher.toNat else 0 := by
  rw [studentsOf, List.countP_map]
  by_cases h : Category.Student = c
  · have hfun : (catP c ∘ studentRecord cfg i) = fun _ => true := by
      funext j
      simp [catP, studentRecord, h.symm]
    rw [hfun, List.countP_true, List.length_range, if_pos h]
  · have hfun : (catP c ∘ studentRecord cfg i) = fun _ => false := by
      funext j
      simp [catP, studentRecord, h]
    rw [hfun, List.countP_false, if_neg h]
    rfl

theorem countP_teacherLoop (cfg : Config) (c : Category) :
    ∀ n, (teacherLoop cfg n).countP (catP c)
      = n * ((if Category.Teacher = c then 1 else 0)
          + (if Category.Student = c then cfg.studentsPerTeacher.toNat else 0)) := by
  intro n
  induction n with
  | zero => simp [teacherLoop]
  | succ n ih =>
      rw [teacherLoop, List.countP_append, ih, teacherBlock, List.countP_cons,
        countP_studentsOf]
      by_cases h : Category.Teacher = c <;>
        by_cases h2 : Category.Student = c <;>
          simp [catP, teacherRecord, h, h2] <;>
          ring

theorem generate_counts_helper (cfg : Config) :
    (generate cfg).countP (catP Category.Leader) = cfg.leaderNames.length
    ∧ ((generate cfg).countP (catP Category.Teacher) : ℤ) = max cfg.teacherCount 0
    ∧ ((generate cfg).countP (catP Category.Student) : ℤ)
        = max cfg.teacherCount 0 * max cfg.studentsPerTeacher 0 := by
  have hl := countP_leaderLoop cfg
  have ht := countP_teacherLoop cfg
  refine ⟨?_, ?_, ?_⟩
  · rw [generate, List.countP_append, createLeaders, hl, createTeachersAndStudents, ht]
    simp
  · rw [generate, List.countP_append, createLeaders, hl, createTeachersAndStudents, ht]
    simp only [if_neg (by simp : ¬ Category.Leader = Category.Teacher),
      if_pos rfl, if_neg (by simp : ¬ Category.Student = Category.Teacher)]
    push_cast
    omega
  · rw [generate, List.countP_append, createLeaders, hl, createTeachersAndStudents, ht]
    simp only [if_neg (by simp : ¬ Category.Leader = Category.Student),
      if_neg (by simp : ¬ Category.Teacher = Category.Student), if_pos rfl]
    push_cast [Int.toNat_eq_max]
    ring

theorem digits_ten_one : Nat.digits 10 1 = [1] := by
  rw [Nat.digits_def' (by norm_num : (1:ℕ) < 10) (by norm_num)]
  norm_num

theorem decRepr_one : decRepr 1 = "1" := by
  rw [decRepr, digits_ten_one]
  rfl

theorem digits_ten_two : Nat.digits 10 2 = [2] := by
  rw [Nat.digits_def' (by norm_num : (1:ℕ) < 10) (by norm_num)]
  norm_num

theorem decRepr_two : decRepr 2 = "2" := by
  rw [decRepr, digits_ten_two]
  rfl

/-- The example configuration of the specification: leader names
`phi` and `gpt`, one teacher, two students per teacher, spacing 200,
agent size 50, and the default colours of the source (gold leaders, blue
teachers, green students). -/
noncomputable def cfg2 : Config :=
  { leaderNames := ["phi", "gpt"]
    teacherCount := 1
    studentsPerTeacher := 2
    spacing := 200
    agentSize := 50
    leaderColor := ⟨1, 0.84, 0⟩
    teacherColor := ⟨0, 0, 1⟩
    studentColor := ⟨0, 1, 0⟩
    showLabels := true }

theorem teacherLoop_one (cfg : Config) : teacherLoop cfg 1 = teacherBlock cfg 0 := by
  rw [show (1 : ℕ) = 0 + 1 from rfl, teacherLoop, teacherLoop, List.nil_append]

theorem cfg2_leader_phi :
    leaderRecord cfg2 0 "phi"
      = ⟨"Leader_phi", Category.Leader, ⟨0, 0, 500⟩, ⟨1, 0.84, 0⟩, 75⟩ := by
  have hs : ("Leader_" ++ "phi" : String) = "Leader_phi" := rfl
  simp only [leaderRecord, cfg2, PlacementRecord.mk.injEq, Vec3.mk.injEq,
    LinearColor.mk.injEq, hs]
  norm_num

theorem cfg2_leader_gpt :
    leaderRecord cfg2 1 "gpt"
      = ⟨"Leader_gpt", Category.Leader, ⟨400, 0, 500⟩, ⟨1, 0.84, 0⟩, 75⟩ := by
  have hs : ("Leader_" ++ "gpt" : String) = "Leader_gpt" := rfl
  simp only [leaderRecord, cfg2, PlacementRecord.mk.injEq, Vec3.mk.injEq,
    LinearColor.mk.injEq, hs]
  norm_num

theorem cfg2_teacher :
    teacherRecord cfg2 0
      = ⟨"Teacher_1", Category.Teacher, ⟨0, 0, -500⟩, ⟨0, 0, 1⟩, 50⟩ := by
  have hs : ("Teacher_" ++ decRepr 1 : String) = "Teacher_1" := by
    rw [decRepr_one]
    rfl
  simp only [teacherRecord, teacherPos, cfg2, PlacementRecord.mk.injEq, Vec3.mk.injEq,
    LinearColor.mk.injEq, Nat.zero_add, hs]
  norm_num

theorem cfg2_student_0 :
    studentRecord cfg2 0 0
      = ⟨"Teacher_1_Student_1", Category.Student, ⟨200, 0, -500⟩, ⟨0, 1, 0⟩, 40⟩ := by
  have hs : ("Teacher_" ++ decRepr 1 ++ "_Student_" ++ decRepr 1 : String)
      = "Teacher_1_Student_1" := by
    rw [decRepr_one]
    rfl
  have hang : studentAngle cfg2 0 = 0 := by
    rw [studentAngle]
    norm_num
  simp only [studentRecord, teacherPos, PlacementRecord.mk.injEq, Vec3.mk.injEq,
    LinearColor.mk.injEq, Nat.zero_add, hs, hang, Real.cos_zero, Real.sin_zero]
  simp only [cfg2]
  norm_num

theorem cfg2_student_1 :
    studentRecord cfg2 0 1
      = ⟨"Teacher_1_Student_2", Category.Student, ⟨-200, 0, -500⟩, ⟨0, 1, 0⟩, 40⟩ := by
  have hs : ("Teacher_" ++ decRepr 1 ++ "_Student_" ++ decRepr 2 : String)
      = "Teacher_1_Student_2" := by
    rw [decRepr_one, decRepr_two]
    rfl
  have hspt2 : ((cfg2.studentsPerTeacher : ℤ) : ℝ) = 2 := by
    norm_num [cfg2]
  have hang : studentAngle cfg2 1 = Real.pi := by
    rw [studentAngle, hspt2]
    push_cast
    ring
  simp only [studentRecord, teacherPos, PlacementRecord.mk.injEq, Vec3.mk.injEq,
    LinearColor.mk.injEq, Nat.zero_add, hs, hang, Real.cos_pi, Real.sin_pi]
  simp only [cfg2]
  norm_num

/-- C2: on the configuration `leaderNames = [phi, gpt]`, `teacherCount = 1`,
`studentsPerTeacher = 2`, `spacing = 200`, `agentSize = 50`, the generator
yields leaders at `(0,0,500)` and `(400,0,500)` with size 75, one teacher at
`(0,0,-500)` with size 50, and two students at `(200,0,-500)` and
`(-200,0,-500)` (angles 0 and 180 degrees) with size 40. -/
theorem C2_example_configuration :
    generate cfg2 =
      [ ⟨"Leader_phi", Category.Leader, ⟨0, 0, 500⟩, ⟨1, 0.84, 0⟩, 75⟩,
        ⟨"Leader_gpt", Category.Leader, ⟨400, 0, 500⟩, ⟨1, 0.84, 0⟩, 75⟩,
        ⟨"Teacher_1", Category.Teacher, ⟨0, 0, -500⟩, ⟨0, 0, 1⟩, 50⟩,
        ⟨"Teacher_1_Student_1", Category.Student, ⟨200, 0, -500⟩, ⟨0, 1, 0⟩, 40⟩,
        ⟨"Teacher_1_Student_2", Category.Student, ⟨-200, 0, -500⟩, ⟨0, 1, 0⟩, 40⟩ ] := by
  have hln : cfg2.leaderNames = ["phi", "gpt"] := rfl
  have htc : cfg2.teacherCount.toNat = 1 := rfl
  have hrange : List.range cfg2.studentsPerTeacher.toNat = [0, 1] := rfl
  have hgen : generate cfg2
      = [leaderRecord cfg2 0 "phi", leaderRecord cfg2 1 "gpt",
         teacherRecord cfg2 0, studentRecord cfg2 0 0, studentRecord cfg2 0 1] := by
    rw [generate, createLeaders, hln, createTeachersAndStudents, htc, teacherLoop_one,
      teacherBlock, studentsOf, hrange]
    simp [leaderLoop]
  rw [hgen, cfg2_leader_phi, cfg2_leader_gpt, cfg2_teacher, cfg2_student_0, cfg2_student_1]

/-- The configuration on which the line-162 failure manifests: an empty
leader list with one teacher requested. -/
noncomputable def cfgFail : Config :=
  { cfg2 with leaderNames := [], teacherCount := 1 }

/-- The line-162 failure configuration with no students per teacher. -/
noncomputable def cfgFail0 : Config :=
  { cfg2 with leaderNames := [], teacherCount := 1, studentsPerTeacher := 0 }

/-- C1: the record counts do not hold of every configuration, because on an
empty leader list with `teacherCount >= 1` the run aborts at the line-162
lookup before creating any teacher (the complete-run model yields `none`);
on every configuration on which the run completes — a nonempty leader list,
or no teacher iterations at all — `generate` produces exactly
`len(leaderNames)` Leader records, `max(teacherCount, 0)` Teacher records,
and `max(teacherCount, 0) * max(studentsPerTeacher, 0)` Student records
(negative `int32` counts make the `for` loops run zero iterations, i.e.
they are clamped to zero). -/
theorem C1_generate_counts :
    generateE cfgFail = none
    ∧ ∀ cfg : Config, (cfg.leaderNames ≠ [] ∨ cfg.teacherCount.toNat = 0) →
        generateE cfg = some (generate cfg)
        ∧ (generate cfg).countP (catP Category.Leader) = cfg.leaderNames.length
        ∧ ((generate cfg).countP (catP Category.Teacher) : ℤ) = max cfg.teacherCount 0
        ∧ ((generate cfg).countP (catP Category.Student) : ℤ)
            = max cfg.teacherCount 0 * max cfg.studentsPerTeacher 0 := by
  constructor
  · exact generateE_aborts cfgFail rfl (by decide)
  · intro cfg h
    have hE : generateE cfg = some (generate cfg) := by
      rcases h with h | h
      · exact generateE_of_ne_nil cfg h
      · exact generateE_of_no_teachers cfg h
    exact ⟨hE, generate_counts_helper cfg⟩

theorem C1_witness :
    (cfg2.leaderNames ≠ [] ∨ cfg2.teacherCount.toNat = 0)
    ∧ (generateE cfg2 = some (generate cfg2)
      ∧ (generate cfg2).countP (catP Category.Leader) = cfg2.leaderNames.length
      ∧ ((generate cfg2).countP (catP Category.Teacher) : ℤ) = max cfg2.teacherCount 0
      ∧ ((generate cfg2).countP (catP Category.Student) : ℤ)
          = max cfg2.teacherCount 0 * max cfg2.studentsPerTeacher 0) :=
  ⟨by decide, (C1_generate_counts).2 cfg2 (by decide)⟩

/-- C5: the i-th leader (0-indexed, in configuration order) is placed at
`(i * 2 * spacing, 0, 500)` with id `Leader_<name>` and size
`agentSize * 1.5`. -/
theorem C5_leader_placement (cfg : Config) (i : ℕ) (nm : String)
    (h : cfg.leaderNames.get? i = some nm) :
    (generate cfg).get? i
      = some { id := "Leader_" ++ nm
               category := Category.Leader
               pos := ⟨(i : ℝ) * 2 * cfg.spacing, 0, 500⟩
               color := cfg.leaderColor
               size := cfg.agentSize * 1.5 } := by
  rw [generate_get?_leader cfg i nm h, leaderRecord]
  have hx : (i : ℝ) * cfg.spacing * 2 = (i : ℝ) * 2 * cfg.spacing := by ring
  rw [hx]

theorem C5_witness :
    cfg2.leaderNames.get? 1 = some "gpt"
    ∧ (generate cfg2).get? 1
        = some { id := "Leader_" ++ "gpt"
                 category := Category.Leader
                 pos := ⟨((1 : ℕ) : ℝ) * 2 * cfg2.spacing, 0, 500⟩
                 color := cfg2.leaderColor
                 size := cfg2.agentSize * 1.5 } :=
  ⟨rfl, C5_leader_placement cfg2 1 "gpt" rfl⟩

/-- C4: the teacher grid placement does not hold of every configuration
with `i < teacherCount`: on an empty leader list the run aborts at the
line-162 lookup before the `CreateAgent` call of line 164, so no teacher
record exists (the complete-run model yields `none` on `cfgFail`); on every
configuration with a nonempty leader list the run completes and the i-th
teacher (0-indexed) is placed at
`(col * spacing * 3, row * spacing * 4, -500)` with `row = i / 5` and
`col = i % 5` (fixed grid row width 5), with size `agentSize`. -/
theorem C4_teacher_placement :
    generateE cfgFail = none
    ∧ ∀ (cfg : Config) (i : ℕ), cfg.leaderNames ≠ [] → i < cfg.teacherCount.toNat →
        generateE cfg = some (generate cfg)
        ∧ (generate cfg).get?
              (cfg.leaderNames.length + i * (1 + cfg.studentsPerTeacher.toNat))
            = some { id := "Teacher_" ++ decRepr (i + 1)
                     category := Category.Teacher
                     pos := ⟨((i % 5 : ℕ) : ℝ) * cfg.spacing * 3,
                             ((i / 5 : ℕ) : ℝ) * cfg.spacing * 4, -500⟩
                     color := cfg.teacherColor
                     size := cfg.agentSize } := by
  constructor
  · exact generateE_aborts cfgFail rfl (by decide)
  · intro cfg i h hi
    refine ⟨generateE_of_ne_nil cfg h, ?_⟩
    rw [generate_get?_teacher cfg i hi]
    rfl

theorem C4_witness :
    cfg2.leaderNames ≠ []
    ∧ 0 < cfg2.teacherCount.toNat
    ∧ (generateE cfg2 = some (generate cfg2)
      ∧ (generate cfg2).get?
            (cfg2.leaderNames.length + 0 * (1 + cfg2.studentsPerTeacher.toNat))
          = some { id := "Teacher_" ++ decRepr (0 + 1)
                   category := Category.Teacher
                   pos := ⟨((0 % 5 : ℕ) : ℝ) * cfg2.spacing * 3,
                           ((0 / 5 : ℕ) : ℝ) * cfg2.spacing * 4, -500⟩
                   color := cfg2.teacherColor
                   size := cfg2.agentSize }) :=
  ⟨by decide, by decide, (C4_teacher_placement).2 cfg2 0 (by decide) (by decide)⟩

/-- C3: the student circle placement does not hold of every configuration
with valid teacher and student indices: on an empty leader list the run
aborts at the line-162 lookup before any teacher or student exists (the
complete-run model yields `none` on `cfgFail`); on every configuration
with a nonempty leader list the run completes and, for every teacher
index i and student index j with `0 <= j < studentsPerTeacher`, the j-th
student of teacher i is placed at the teacher's position plus the offset
`(cos(angle) * spacing, sin(angle) * spacing, 0)` with
`angle = j * 360 / studentsPerTeacher` degrees converted to radians, and
the student's size is `agentSize * 0.8`. -/
theorem C3_student_placement :
    generateE cfgFail = none
    ∧ ∀ (cfg : Config) (i j : ℕ), cfg.leaderNames ≠ [] →
        i < cfg.teacherCount.toNat → j < cfg.studentsPerTeacher.toNat →
        generateE cfg = some (generate cfg)
        ∧ ∃ t s : PlacementRecord,
          (generate cfg).get?
              (cfg.leaderNames.length + i * (1 + cfg.studentsPerTeacher.toNat)) = some t
          ∧ (generate cfg).get?
              (cfg.leaderNames.length + (i * (1 + cfg.studentsPerTeacher.toNat) + 1 + j))
                = some s
          ∧ s.pos = ⟨t.pos.x
                + Real.cos (((j : ℝ) * 360 / (cfg.studentsPerTeacher : ℝ)) * Real.pi / 180)
                  * cfg.spacing,
              t.pos.y
                + Real.sin (((j : ℝ) * 360 / (cfg.studentsPerTeacher : ℝ)) * Real.pi / 180)
                  * cfg.spacing,
              t.pos.z⟩
          ∧ s.size = cfg.agentSize * 0.8 := by
  constructor
  · exact generateE_aborts cfgFail rfl (by decide)
  · intro cfg i j h hi hj
    refine ⟨generateE_of_ne_nil cfg h, teacherRecord cfg i, studentRecord cfg i j,
      generate_get?_teacher cfg i hi, generate_get?_student cfg i j hi hj, ?_, rfl⟩
    rw [studentRecord, teacherRecord, studentAngle]

theorem C3_witness :
    cfg2.leaderNames ≠ []
    ∧ 0 < cfg2.teacherCount.toNat
    ∧ 1 < cfg2.studentsPerTeacher.toNat
    ∧ (generateE cfg2 = some (generate cfg2)
      ∧ ∃ t s : PlacementRecord,
        (generate cfg2).get?
            (cfg2.leaderNames.length + 0 * (1 + cfg2.studentsPerTeacher.toNat)) = some t
        ∧ (generate cfg2).get?
            (cfg2.leaderNames.length + (0 * (1 + cfg2.studentsPerTeacher.toNat) + 1 + 1))
              = some s
        ∧ s.pos = ⟨t.pos.x
              + Real.cos ((((1 : ℕ) : ℝ) * 360 / (cfg2.studentsPerTeacher : ℝ)) * Real.pi / 180)
                * cfg2.spacing,
            t.pos.y
              + Real.sin ((((1 : ℕ) : ℝ) * 360 / (cfg2.studentsPerTeacher : ℝ)) * Real.pi / 180)
                * cfg2.spacing,
            t.pos.z⟩
        ∧ s.size = cfg2.agentSize * 0.8) :=
  ⟨by decide, by decide, by decide,
    (C3_student_placement).2 cfg2 0 1 (by decide) (by decide) (by decide)⟩

theorem teacherLoop_no_students (cfg : Config) (h : cfg.studentsPerTeacher = 0) :
    ∀ n, teacherLoop cfg n = (List.range n).map (teacherRecord cfg) := by
  intro n
  induction n with
  | zero => rfl
  | succ n ih =>
      rw [teacherLoop, ih, List.range_succ, List.map_append, teacherBlock, studentsOf]
      simp [h]

/-- C6: the generator is not total — on an empty leader list with
`teacherCount >= 1` the run aborts at the line-162 lookup even when
`studentsPerTeacher = 0` (the complete-run model yields `none` on
`cfgFail0`), contradicting the no-error clause of the claim; on every
configuration on which the run completes (nonempty leader list, or no
teacher iterations) with `studentsPerTeacher = 0`, the student loop is
short-circuited (it runs zero iterations, so the angular-placement
division is never evaluated on any produced record), the teachers are
still generated, and the completed output is exactly the leaders followed
by the bare teacher records. -/
theorem C6_zero_students_total :
    generateE cfgFail0 = none
    ∧ ∀ cfg : Config, (cfg.leaderNames ≠ [] ∨ cfg.teacherCount.toNat = 0) →
        cfg.studentsPerTeacher = 0 →
        generateE cfg
            = some (createLeaders cfg
                ++ (List.range cfg.teacherCount.toNat).map (teacherRecord cfg))
        ∧ (generate cfg).countP (catP Category.Student) = 0
        ∧ ((generate cfg).countP (catP Category.Teacher) : ℤ) = max cfg.teacherCount 0 := by
  constructor
  · exact generateE_aborts cfgFail0 rfl (by decide)
  · intro cfg h h0
    have hE : generateE cfg = some (generate cfg) := by
      rcases h with h | h
      · exact generateE_of_ne_nil cfg h
      · exact generateE_of_no_teachers cfg h
    refine ⟨?_, ?_, (generate_counts_helper cfg).2.1⟩
    · rw [hE, generate, createTeachersAndStudents, teacherLoop_no_students cfg h0]
    · have := (generate_counts_helper cfg).2.2
      have hz : max cfg.studentsPerTeacher 0 = 0 := by rw [h0]; rfl
      rw [hz, mul_zero] at this
      exact_mod_cast this

/-- A copy of the example configuration with no students per teacher. -/
noncomputable def cfg6 : Config :=
  { cfg2 with studentsPerTeacher := 0 }

theorem C6_witness :
    (cfg6.leaderNames ≠ [] ∨ cfg6.teacherCount.toNat = 0)
    ∧ cfg6.studentsPerTeacher = 0
    ∧ (generateE cfg6
          = some (createLeaders cfg6
              ++ (List.range cfg6.teacherCount.toNat).map (teacherRecord cfg6))
      ∧ (generate cfg6).countP (catP Category.Student) = 0
      ∧ ((generate cfg6).countP (catP Category.Teacher) : ℤ) = max cfg6.teacherCount 0) :=
  ⟨by decide, rfl, (C6_zero_students_total).2 cfg6 (by decide) rfl⟩

theorem generate_congr (c₁ c₂ : Config)
    (h1 : c₁.leaderNames = c₂.leaderNames)
    (h2 : c₁.teacherCount = c₂.teacherCount)
    (h3 : c₁.studentsPerTeacher = c₂.studentsPerTeacher)
    (h4 : c₁.spacing = c₂.spacing)
    (h5 : c₁.agentSize = c₂.agentSize)
    (h6 : c₁.leaderColor = c₂.leaderColor)
    (h7 : c₁.teacherColor = c₂.teacherColor)
    (h8 : c₁.studentColor = c₂.studentColor) :
    generate c₁ = generate c₂ := by
  have hLR : leaderRecord c₁ = leaderRecord c₂ := by
    funext i nm
    rw [leaderRecord, leaderRecord, h4, h5, h6]
  have hLL : ∀ names i, leaderLoop c₁ i names = leaderLoop c₂ i names := by
    intro names
    induction names with
    | nil => intro i; rfl
    | cons nm rest ih =>
        intro i
        rw [leaderLoop, leaderLoop, hLR, ih]
  have hTR : teacherRecord c₁ = teacherRecord c₂ := by
    funext i
    rw [teacherRecord, teacherRecord, teacherPos, teacherPos, h4, h5, h7]
  have hSR : studentRecord c₁ = studentRecord c₂ := by
    funext i j
    rw [studentRecord, studentRecord, teacherPos, teacherPos, studentAngle, studentAngle,
      h3, h4, h5, h8]
  have hTB : teacherBlock c₁ = teacherBlock c₂ := by
    funext i
    rw [teacherBlock, teacherBlock, studentsOf, studentsOf, h3, hSR, hTR]
  have hTL : ∀ n, teacherLoop c₁ n = teacherLoop c₂ n := by
    intro n
    induction n with
    | zero => rfl
    | succ n ih => rw [teacherLoop, teacherLoop, ih, hTB]
  rw [generate, generate, createLeaders, createLeaders, h1, hLL,
    createTeachersAndStudents, createTeachersAndStudents, h2, hTL]

/-- C9: the `showLabels` flag does not influence the generator's output:
two configurations identical except for `showLabels` yield identical
sequences of placement records (the flag is only consulted by the rendering
side, `CreateAgent`'s label attachment). -/
theorem C9_showLabels_no_influence (c : Config) (b₁ b₂ : Bool) :
    generate { c with showLabels := b₁ } = generate { c with showLabels := b₂ } :=
  generate_congr _ _ rfl rfl rfl rfl rfl rfl rfl rfl

/-- C10: the i-th leader's id is `Leader_` followed by its configured name,
the i-th teacher's id is `Teacher_` followed by the decimal of `i + 1`, and
student j of teacher i has id equal to its parent teacher's id followed by
`_Student_` and the decimal of `j + 1`; hence every student id has its
parent teacher's id as a strict prefix. -/
theorem C10_id_formats (cfg : Config) (k i j : ℕ) (nm : String)
    (hk : cfg.leaderNames.get? k = some nm)
    (hi : i < cfg.teacherCount.toNat) (hj : j < cfg.studentsPerTeacher.toNat) :
    ∃ l t s : PlacementRecord,
      (generate cfg).get? k = some l
      ∧ (generate cfg).get?
          (cfg.leaderNames.length + i * (1 + cfg.studentsPerTeacher.toNat)) = some t
      ∧ (generate cfg).get?
          (cfg.leaderNames.length + (i * (1 + cfg.studentsPerTeacher.toNat) + 1 + j))
            = some s
      ∧ l.id = "Leader_" ++ nm
      ∧ t.id = "Teacher_" ++ decRepr (i + 1)
      ∧ s.id = t.id ++ "_Student_" ++ decRepr (j + 1)
      ∧ ∃ suf : String, suf ≠ "" ∧ s.id = t.id ++ suf := by
  refine ⟨leaderRecord cfg k nm, teacherRecord cfg i, studentRecord cfg i j,
    generate_get?_leader cfg k nm hk, generate_get?_teacher cfg i hi,
    generate_get?_student cfg i j hi hj, rfl, rfl, rfl,
    "_Student_" ++ decRepr (j + 1), ?_, ?_⟩
  · intro hempty
    have hdata := congrArg String.data hempty
    simp [String.data_append] at hdata
  · simp only [studentRecord, teacherRecord, String.append_assoc]

/-- C7: the round-robin leader lookup of line 162
(`Leaders[i % Leaders.Num()]`) evaluated on an empty leader list: the
lookup fails (integer modulo by zero and an out-of-bounds array access,
modelled as `none`) already for the first teacher, instead of generating
the teacher ungrouped as the specification states. -/
theorem C7_empty_leader_lookup_fails : teacherLeaderName [] 0 = none := rfl

theorem digitChar_ne_underscore : ∀ d < 10, Nat.digitChar d ≠ '_' := by decide

theorem digitChar_inj_lt : ∀ x < 10, ∀ y < 10, Nat.digitChar x = Nat.digitChar y → x = y := by
  decide

theorem map_digitChar_inj :
    ∀ l₁ l₂ : List ℕ, (∀ x ∈ l₁, x < 10) → (∀ x ∈ l₂, x < 10) →
      l₁.map Nat.digitChar = l₂.map Nat.digitChar → l₁ = l₂ := by
  intro l₁
  induction l₁ with
  | nil =>
      intro l₂ _ _ h
      cases l₂ with
      | nil => rfl
      | cons y ys => simp at h
  | cons x xs ih =>
      intro l₂ h1 h2 h
      cases l₂ with
      | nil => simp at h
      | cons y ys =>
          simp only [List.map_cons, List.cons.injEq] at h
          have hx : x = y :=
            digitChar_inj_lt x (h1 x (by simp)) y (h2 y (by simp)) h.1
          have hxs : xs = ys :=
            ih ys (fun z hz => h1 z (by simp [hz])) (fun z hz => h2 z (by simp [hz])) h.2
          rw [hx, hxs]

theorem decRepr_data (n : ℕ) :
    (decRepr n).data = (Nat.digits 10 n).reverse.map Nat.digitChar := rfl

theorem underscore_not_mem_decRepr (n : ℕ) : '_' ∉ (decRepr n).data := by
  rw [decRepr_data]
  intro hmem
  rcases List.mem_map.mp hmem with ⟨d, hd, hdc⟩
  exact digitChar_ne_underscore d
    (Nat.digits_lt_base (by norm_num) (List.mem_reverse.mp hd)) hdc

theorem decRepr_inj {a b : ℕ} (h : decRepr a = decRepr b) : a = b := by
  have hd := congrArg String.data h
  rw [decRepr_data, decRepr_data] at hd
  have h1 : ∀ x ∈ (Nat.digits 10 a).reverse, x < 10 := fun x hx =>
    Nat.digits_lt_base (by norm_num) (List.mem_reverse.mp hx)
  have h2 : ∀ x ∈ (Nat.digits 10 b).reverse, x < 10 := fun x hx =>
    Nat.digits_lt_base (by norm_num) (List.mem_reverse.mp hx)
  have hrev := map_digitChar_inj _ _ h1 h2 hd
  exact Nat.digits_inj_iff.mp (List.reverse_injective hrev)

theorem string_append_left_cancel {s t₁ t₂ : String} (h : s ++ t₁ = s ++ t₂) :
    t₁ = t₂ := by
  have hd := congrArg String.data h
  rw [String.data_append, String.data_append] at hd
  exact String.ext (List.append_cancel_left hd)

theorem underscore_split :
    ∀ a a' r r' : List Char, '_' ∉ a → '_' ∉ a' →
      a ++ '_' :: r = a' ++ '_' :: r' → a = a' ∧ r = r' := by
  intro a
  induction a with
  | nil =>
      intro a' r r' _ h2 h
      cases a' with
      | nil =>
          simp only [List.nil_append, List.cons.injEq] at h
          exact ⟨rfl, h.2⟩
      | cons y ys =>
          simp only [List.nil_append, List.cons_append, List.cons.injEq] at h
          exact absurd (h.1 ▸ List.mem_cons_self y ys) h2
  | cons x xs ih =>
      intro a' r r' h1 h2 h
      cases a' with
      | nil =>
          simp only [List.cons_append, List.nil_append, List.cons.injEq] at h
          exact absurd (h.1 ▸ List.mem_cons_self x xs) h1
      | cons y ys =>
          simp only [List.cons_append, List.cons.injEq] at h
          have hxs := ih ys r r' (fun hm => h1 (List.mem_cons_of_mem x hm))
            (fun hm => h2 (List.mem_cons_of_mem y hm)) h.2
          exact ⟨by rw [h.1, hxs.1], hxs.2⟩

theorem leader_ne_teacher_id (x y : String) : "Leader_" ++ x ≠ "Teacher_" ++ y := by
  intro h
  have hd := congrArg String.data h
  rw [String.data_append, String.data_append] at hd
  have hx : ("Leader_" : String).data = ['L', 'e', 'a', 'd', 'e', 'r', '_'] := rfl
  have hy : ("Teacher_" : String).data = ['T', 'e', 'a', 'c', 'h', 'e', 'r', '_'] := rfl
  rw [hx, hy] at hd
  simp only [List.cons_append, List.cons.injEq] at hd
  exact absurd hd.1 (by decide)

theorem teacher_id_inj {a b : ℕ}
    (h : ("Teacher_" ++ decRepr (a + 1) : String) = "Teacher_" ++ decRepr (b + 1)) :
    a = b := by
  have := decRepr_inj (string_append_left_cancel h)
  omega

theorem teacher_id_ne_student_id (a b c : ℕ) :
    ("Teacher_" ++ decRepr (a + 1) : String)
      ≠ "Teacher_" ++ decRepr (b + 1) ++ "_Student_" ++ decRepr (c + 1) := by
  intro h
  rw [String.append_assoc, String.append_assoc] at h
  have h2 := string_append_left_cancel h
  have hd := congrArg String.data h2
  rw [String.data_append, String.data_append] at hd
  have hmem : '_' ∈ (decRepr (a + 1)).data := by
    rw [hd]
    refine List.mem_append_right _ (List.mem_append_left _ ?_)
    decide
  exact underscore_not_mem_decRepr _ hmem

theorem student_id_inj {a b a' b' : ℕ}
    (h : ("Teacher_" ++ decRepr (a + 1) ++ "_Student_" ++ decRepr (b + 1) : String)
       = "Teacher_" ++ decRepr (a' + 1) ++ "_Student_" ++ decRepr (b' + 1)) :
    a = a' ∧ b = b' := by
  have hd := congrArg String.data h
  simp only [String.data_append, List.append_assoc] at hd
  have hd2 := List.append_cancel_left hd
  simp only [List.cons_append] at hd2
  have hsplit := underscore_split _ _ _ _
    (underscore_not_mem_decRepr (a + 1)) (underscore_not_mem_decRepr (a' + 1)) hd2
  have ha := decRepr_inj (String.ext hsplit.1)
  have hrest := hsplit.2
  simp only [List.cons.injEq, true_and] at hrest
  have hb := decRepr_inj (String.ext hrest)
  omega

theorem map_id_leaderLoop (cfg : Config) :
    ∀ names i, (leaderLoop cfg i names).map PlacementRecord.id
      = names.map (fun nm => "Leader_" ++ nm) := by
  intro names
  induction names with
  | nil => intro i; rfl
  | cons nm rest ih =>
      intro i
      simp [leaderLoop, leaderRecord, ih]

theorem map_id_teacherBlock (cfg : Config) (i : ℕ) :
    (teacherBlock cfg i).map PlacementRecord.id
      = ("Teacher_" ++ decRepr (i + 1))
          :: (List.range cfg.studentsPerTeacher.toNat).map
              (fun j => "Teacher_" ++ decRepr (i + 1) ++ "_Student_" ++ decRepr (j + 1)) := by
  simp [teacherBlock, studentsOf, teacherRecord, studentRecord, List.map_map, Function.comp]

theorem teacherLoop_ids_nodup_mem (cfg : Config) :
    ∀ n, ((teacherLoop cfg n).map PlacementRecord.id).Nodup
      ∧ ∀ x ∈ (teacherLoop cfg n).map PlacementRecord.id,
          ∃ a, a < n ∧ (x = "Teacher_" ++ decRepr (a + 1)
            ∨ ∃ b, x = "Teacher_" ++ decRepr (a + 1) ++ "_Student_" ++ decRepr (b + 1)) := by
  intro n
  induction n with
  | zero =>
      constructor
      · simp [teacherLoop]
      · intro x hx
        simp [teacherLoop] at hx
  | succ n ih =>
      obtain ⟨hnd, hmem⟩ := ih
      rw [teacherLoop, List.map_append]
      constructor
      · rw [List.nodup_append]
        refine ⟨hnd, ?_, ?_⟩
        · rw [map_id_teacherBlock, List.nodup_cons]
          constructor
          · intro hmem2
            rcases List.mem_map.mp hmem2 with ⟨j, _, hj⟩
            exact teacher_id_ne_student_id n n j hj.symm
          · exact List.Nodup.map (fun j j' hjj => (student_id_inj hjj).2)
              (List.nodup_range _)
        · intro x hx1 hx2
          rcases hmem x hx1 with ⟨a, ha, hcase⟩
          rw [map_id_teacherBlock] at hx2
          rcases List.mem_cons.mp hx2 with hx2 | hx2
          · rcases hcase with hta | ⟨b, hsa⟩
            · have : a = n := teacher_id_inj (hta.symm.trans hx2)
              omega
            · exact teacher_id_ne_student_id n a b (hx2.symm.trans hsa)
          · rcases List.mem_map.mp hx2 with ⟨j, _, hxj⟩
            rcases hcase with hta | ⟨b, hsa⟩
            · exact teacher_id_ne_student_id a n j (hta.symm.trans hxj.symm)
            · have : a = n := (student_id_inj (hsa.symm.trans hxj.symm)).1
              omega
      · intro x hx
        rcases List.mem_append.mp hx with hx | hx
        · rcases hmem x hx with ⟨a, ha, hc⟩
          exact ⟨a, by omega, hc⟩
        · rw [map_id_teacherBlock] at hx
          rcases List.mem_cons.mp hx with hx | hx
          · exact ⟨n, by omega, Or.inl hx⟩
          · rcases List.mem_map.mp hx with ⟨j, _, hxj⟩
            exact ⟨n, by omega, Or.inr ⟨j, hxj.symm⟩⟩

/-- A configuration with a duplicated leader name and no teachers. -/
noncomputable def cfgDup : Config :=
  { cfg2 with leaderNames := ["phi", "phi"], teacherCount := 0 }

/-- C8 counterexample: on a configuration whose leader name list repeats a
name, the generated output contains two records with the same id
(`Leader_phi` twice), so the id values are not pairwise distinct for every
configuration. -/
theorem C8_counterexample_duplicate_ids :
    ¬ ((generate cfgDup).map PlacementRecord.id).Nodup := by
  have h1 : cfgDup.leaderNames = ["phi", "phi"] := rfl
  have h2 : cfgDup.teacherCount.toNat = 0 := rfl
  have hgen : generate cfgDup
      = [leaderRecord cfgDup 0 "phi", leaderRecord cfgDup 1 "phi"] := by
    rw [generate, createLeaders, h1, createTeachersAndStudents, h2]
    simp [leaderLoop, teacherLoop]
  rw [hgen]
  simp [leaderRecord]

/-- C8 (amended): for every configuration whose leader name list has no
duplicate names, all id values in the generated output are pairwise
distinct across leaders, teachers, and students. -/
theorem C8_distinct_ids (cfg : Config) (h : cfg.leaderNames.Nodup) :
    ((generate cfg).map PlacementRecord.id).Nodup := by
  rw [generate, List.map_append, List.nodup_append]
  refine ⟨?_, (teacherLoop_ids_nodup_mem cfg _).1, ?_⟩
  · rw [createLeaders, map_id_leaderLoop]
    exact h.map fun x y hxy => string_append_left_cancel hxy
  · intro x hx1 hx2
    rw [createLeaders, map_id_leaderLoop] at hx1
    rcases List.mem_map.mp hx1 with ⟨nm, _, hnm⟩
    rcases (teacherLoop_ids_nodup_mem cfg _).2 x hx2 with ⟨a, _, hc | ⟨b, hc⟩⟩
    · exact leader_ne_teacher_id nm _ (hnm.trans hc)
    · have hc2 : x = "Teacher_" ++ (decRepr (a + 1) ++ ("_Student_" ++ decRepr (b + 1))) := by
        rw [hc, String.append_assoc, String.append_assoc]
      exact leader_ne_teacher_id nm _ (hnm.trans hc2)

theorem C8_witness :
    cfg2.leaderNames.Nodup ∧ ((generate cfg2).map PlacementRecord.id).Nodup :=
  ⟨by decide, C8_distinct_ids cfg2 (by decide)⟩

theorem C10_witness :
    cfg2.leaderNames.get? 0 = some "phi"
    ∧ 0 < cfg2.teacherCount.toNat
    ∧ 0 < cfg2.studentsPerTeacher.toNat
    ∧ (∃ l t s : PlacementRecord,
        (generate cfg2).get? 0 = some l
        ∧ (generate cfg2).get?
            (cfg2.leaderNames.length + 0 * (1 + cfg2.studentsPerTeacher.toNat)) = some t
        ∧ (generate cfg2).get?
            (cfg2.leaderNames.length + (0 * (1 + cfg2.studentsPerTeacher.toNat) + 1 + 0))
              = some s
        ∧ l.id = "Leader_" ++ "phi"
        ∧ t.id = "Teacher_" ++ decRepr (0 + 1)
        ∧ s.id = t.id ++ "_Student_" ++ decRepr (0 + 1)
        ∧ ∃ suf : String, suf ≠ "" ∧ s.id = t.id ++ suf) :=
  ⟨rfl, by decide, by decide,
    C10_id_formats cfg2 0 0 0 "phi" rfl (by decide) (by decide)⟩
